import Mathlib

/-!
Verification of the rate-limited key vendor and device-auth endpoints of the
anava-infrastructure-deployer repository.

The embedding follows `src/functions/ai-proxy/main.py` and
`src/temp-function-update/device-auth/main.py` /
`src/temp-functions/device-auth/main.py`.  Timestamps are integers (seconds);
the Firestore document store is modelled as a function from document id to an
optional record; Firestore query and update primitives (order_by, where,
Increment, ArrayUnion) are modelled explicitly.  Exceptions raised by the
backing store are modelled with `Except`.
-/

set_option maxRecDepth 100000

/-- Configuration constant from RATE_LIMITS in main.py. -/
def requests_per_minute : Nat := 10

/-- Configuration constant from RATE_LIMITS in main.py. -/
def requests_per_hour : Nat := 100

/-- Configuration constant from RATE_LIMITS in main.py. -/
def requests_per_day : Nat := 500

/-- Configuration constant from RATE_LIMITS in main.py: total lifetime limit. -/
def requests_per_device : Nat := 1000

/-- Usage-tracking document stored per device fingerprint
(collection `ai_usage_tracking`). -/
structure UsageRecord where
  created_at : Int
  total_requests : Nat
  successful_requests : Nat
  total_tokens : Nat
  last_request : Option Int
  requests_this_minute : List Int
  requests_this_hour : List Int
  requests_this_day : List Int
deriving Repr, DecidableEq

/-- The zero record written by check_rate_limits for a first-time user
(main.py lines 74-80).  Fields absent from the freshly written document read
back as their defaults (the code reads them with .get and a default). -/
def initRecord (now : Int) : UsageRecord :=
  { created_at := now
    total_requests := 0
    successful_requests := 0
    total_tokens := 0
    last_request := none
    requests_this_minute := []
    requests_this_hour := []
    requests_this_day := [] }

/-- Pruning of a sliding window: keep only timestamps strictly newer than the
horizon start, exactly the list comprehensions of main.py lines 94-99. -/
def pruneWindow (horizonStart : Int) (l : List Int) : List Int :=
  l.filter (fun ts => horizonStart < ts)

/-- The body of check_rate_limits for an existing usage document
(main.py lines 83-109): lifetime cap first, then the pruned per-minute,
per-hour, per-day windows in that order. -/
def check_rate_limits_doc (usage_data : UsageRecord) (now : Int) : Bool × String :=
  if usage_data.total_requests ≥ requests_per_device then
    (false, "Demo limit reached. Please upgrade to continue.")
  else
    let minute_ago := now - 60
    let hour_ago := now - 3600
    let day_ago := now - 86400
    let requests_this_minute := pruneWindow minute_ago usage_data.requests_this_minute
    let requests_this_hour := pruneWindow hour_ago usage_data.requests_this_hour
    let requests_this_day := pruneWindow day_ago usage_data.requests_this_day
    if requests_this_minute.length ≥ requests_per_minute then
      (false, "Rate limit exceeded. Please wait a minute.")
    else if requests_this_hour.length ≥ requests_per_hour then
      (false, "Hourly limit reached. Please wait.")
    else if requests_this_day.length ≥ requests_per_day then
      (false, "Daily limit reached. Try again tomorrow.")
    else
      (true, "Within limits")

/-- check_rate_limits (main.py lines 65-113).  The read of the usage document
may raise (`Except.error`), as may the write that creates the first-time
record (`setFails`); the surrounding try/except turns any such exception into
a denial with message "Service error".  The second component is the document
written by the first-time branch, if any. -/
def check_rate_limits (getRes : Except Unit (Option UsageRecord)) (setFails : Bool)
    (now : Int) : (Bool × String) × Option UsageRecord :=
  match getRes with
  | Except.error _ => ((false, "Service error"), none)
  | Except.ok none =>
      if setFails then ((false, "Service error"), none)
      else ((true, "First time user"), some (initRecord now))
  | Except.ok (some usage_data) => (check_rate_limits_doc usage_data now, none)

/-- The usage-tracking collection, keyed by device id. -/
abbrev Store := String → Option UsageRecord

/-- One call of check_rate_limits against the store (no exception raised):
the result and the store after the call (the first-time branch writes the
fresh zero record, every other branch writes nothing). -/
def checkStep (s : Store) (device_id : String) (now : Int) : (Bool × String) × Store :=
  match check_rate_limits (Except.ok (s device_id)) false now with
  | (res, none) => (res, s)
  | (res, some r) => (res, fun k => if k = device_id then some r else s k)

/-- Firestore ArrayUnion: adds the element only when it is not already
present. -/
def arrayUnion (l : List Int) (x : Int) : List Int :=
  if x ∈ l then l else l ++ [x]

/-- The update applied by track_usage to an existing usage document
(main.py lines 156-164): Increment on the counters, ArrayUnion of the current
timestamp on the three windows, last_request set to now. -/
def track_usage_doc (r : UsageRecord) (now : Int) (success : Bool)
    (tokens_used : Nat) : UsageRecord :=
  { created_at := r.created_at
    total_requests := r.total_requests + 1
    successful_requests := r.successful_requests + (if success then 1 else 0)
    total_tokens := r.total_tokens + tokens_used
    last_request := some now
    requests_this_minute := arrayUnion r.requests_this_minute now
    requests_this_hour := arrayUnion r.requests_this_hour now
    requests_this_day := arrayUnion r.requests_this_day now }

/-- track_usage (main.py lines 150-167).  Firestore update on a nonexistent
document raises NotFound; the except swallows it, so the store is unchanged
in that case. -/
def track_usage (s : Store) (device_id : String) (success : Bool)
    (tokens_used : Nat) (now : Int) : Store :=
  match s device_id with
  | none => s
  | some r => fun k =>
      if k = device_id then some (track_usage_doc r now success tokens_used) else s k

/-- Document of the shared_ai_keys collection. -/
structure PooledKey where
  id : String
  active : Bool
  used_today : Nat
  daily_quota : Nat
deriving Repr, DecidableEq

/-- Insertion of a key into a list sorted by ascending used_today (stable:
an equal element goes after existing ones, as in a stable order_by). -/
def insertByUsed (k : PooledKey) : List PooledKey → List PooledKey
  | [] => [k]
  | x :: xs => if k.used_today < x.used_today then k :: x :: xs else x :: insertByUsed k xs

/-- Firestore order_by: the list of keys sorted by ascending used_today. -/
def sortByUsed : List PooledKey → List PooledKey
  | [] => []
  | x :: xs => insertByUsed x (sortByUsed xs)

/-- get_next_available_key (main.py lines 116-147).  First query: active keys
ordered by used_today, limit 1.  If that least-used key is at or over its own
daily_quota, the fallback query asks for active keys with used_today < 1000
(the hardcoded constant of line 134), limit 1.  The secret store lookup
(get_secret) may itself fail, returning none. -/
def get_next_available_key (keys : List PooledKey)
    (secrets : String → Option String) : Option String :=
  match sortByUsed (keys.filter (fun k => k.active)) with
  | [] => none
  | key_doc :: _ =>
    let chosen : Option PooledKey :=
      if key_doc.used_today ≥ key_doc.daily_quota then
        (sortByUsed ((keys.filter (fun k => k.active)).filter
          (fun k => k.used_today < 1000))).head?
      else some key_doc
    match chosen with
    | none => none
    | some kd => secrets ("ai-key-" ++ kd.id)

/-- Key selection as the specification words it (section 4.2 of the spec):
the fallback scan is restricted to keys with used_today below their own
daily_quota, not below a fixed constant. -/
def selectPooledKey_specIntent (keys : List PooledKey)
    (secrets : String → Option String) : Option String :=
  match sortByUsed (keys.filter (fun k => k.active)) with
  | [] => none
  | key_doc :: _ =>
    let chosen : Option PooledKey :=
      if key_doc.used_today ≥ key_doc.daily_quota then
        (sortByUsed ((keys.filter (fun k => k.active)).filter
          (fun k => k.used_today < k.daily_quota))).head?
      else some key_doc
    match chosen with
    | none => none
    | some kd => secrets ("ai-key-" ++ kd.id)

/-- JSON scalar appearing in the modelled response bodies. -/
inductive JVal where
  | s (v : String)
  | n (v : Int)
deriving Repr, DecidableEq

/-- Response body: a JSON object (list of fields) or a plain text body. -/
inductive Body where
  | obj (fields : List (String × JVal))
  | text (msg : String)
deriving Repr, DecidableEq

/-- device_authenticator of src/temp-function-update/device-auth/main.py.
`apps` is whether firebase_admin._apps is nonempty; `req_json` is the parsed
JSON body (outer none: no body), whose inner component is the device_id field
(none: field absent); `signer` is auth.create_custom_token, which may raise.
The checks run in source order: OPTIONS, SDK, method, body, device_id,
signing. -/
def device_authenticator (apps : Bool) (method : String)
    (req_json : Option (Option String)) (signer : String → Except Unit String) :
    Nat × Body :=
  if method = "OPTIONS" then (204, Body.text "")
  else if ¬ apps then (500, Body.obj [("error", JVal.s "Firebase SDK not initialized")])
  else if method ≠ "POST" then (405, Body.obj [("error", JVal.s "Method not allowed")])
  else
    match req_json with
    | none => (400, Body.obj [("error", JVal.s "Bad Request: No JSON body")])
    | some device_id_field =>
      match device_id_field with
      | none => (400, Body.obj [("error", JVal.s "Bad Request: device_id missing")])
      | some device_id =>
        if device_id = "" then
          (400, Body.obj [("error", JVal.s "Bad Request: device_id missing")])
        else
          match signer device_id with
          | Except.error _ => (500, Body.obj [("error", JVal.s "Token generation error")])
          | Except.ok custom_token =>
              (200, Body.obj [("firebase_custom_token", JVal.s custom_token)])

/-- device_authenticator of src/temp-functions/device-auth/main.py: same
checks minus the OPTIONS branch, error bodies are plain strings. -/
def device_authenticator_v2 (apps : Bool) (method : String)
    (req_json : Option (Option String)) (signer : String → Except Unit String) :
    Nat × Body :=
  if ¬ apps then (500, Body.text "Firebase SDK not init")
  else if method ≠ "POST" then (405, Body.text "Method Not Allowed")
  else
    match req_json with
    | none => (400, Body.text "Bad Request: No JSON")
    | some device_id_field =>
      match device_id_field with
      | none => (400, Body.text "Bad Request: device_id missing")
      | some device_id =>
        if device_id = "" then (400, Body.text "Bad Request: device_id missing")
        else
          match signer device_id with
          | Except.error _ => (500, Body.text "Token gen error")
          | Except.ok custom_token =>
              (200, Body.obj [("firebase_custom_token", JVal.s custom_token)])

/-! SHA-256 (FIPS 180-4) over byte lists, used by generate_device_id
(main.py lines 54-62, hashlib.sha256(...).hexdigest()[:16]).  Words are
naturals reduced modulo 2^32. -/

/-- Addition of two 32-bit words. -/
def add32 (a b : Nat) : Nat := (a + b) % 4294967296

/-- Rotation of a 32-bit word to the right by n bits. -/
def rotr (n x : Nat) : Nat := ((x >>> n) ||| (x <<< (32 - n))) % 4294967296

/-- Message-schedule sigma-0. -/
def sigma0 (x : Nat) : Nat := (rotr 7 x) ^^^ (rotr 18 x) ^^^ (x >>> 3)

/-- Message-schedule sigma-1. -/
def sigma1 (x : Nat) : Nat := (rotr 17 x) ^^^ (rotr 19 x) ^^^ (x >>> 10)

/-- Compression big-sigma-0. -/
def bigSigma0 (x : Nat) : Nat := (rotr 2 x) ^^^ (rotr 13 x) ^^^ (rotr 22 x)

/-- Compression big-sigma-1. -/
def bigSigma1 (x : Nat) : Nat := (rotr 6 x) ^^^ (rotr 11 x) ^^^ (rotr 25 x)

/-- Choice function; complement taken inside 32 bits. -/
def ch (x y z : Nat) : Nat := (x &&& y) ^^^ ((x ^^^ 4294967295) &&& z)

/-- Majority function. -/
def maj (x y z : Nat) : Nat := (x &&& y) ^^^ (x &&& z) ^^^ (y &&& z)

/-- The 64 SHA-256 round constants, written in decimal. -/
def K64 : List Nat :=
  [1116352408, 1899447441, 3049323471, 3921009573, 961987163,
   1508970993, 2453635748, 2870763221, 3624381080, 310598401,
   607225278, 1426881987, 1925078388, 2162078206, 2614888103,
   3248222580, 3835390401, 4022224774, 264347078, 604807628,
   770255983, 1249150122, 1555081692, 1996064986, 2554220882,
   2821834349, 2952996808, 3210313671, 3336571891, 3584528711,
   113926993, 338241895, 666307205, 773529912, 1294757372,
   1396182291, 1695183700, 1986661051, 2177026350, 2456956037,
   2730485921, 2820302411, 3259730800, 3345764771, 3516065817,
   3600352804, 4094571909, 275423344, 430227734, 506948616,
   659060556, 883997877, 958139571, 1322822218, 1537002063,
   1747873779, 1955562222, 2024104815, 2227730452, 2361852424,
   2428436474, 2756734187, 3204031479, 3329325298]

/-- Extension of the 16-word chunk to the 64-word message schedule, driven by
a fuel count of 48. -/
def extendW : Nat → List Nat → List Nat
  | 0, w => w
  | n + 1, w =>
    let l := w.length
    let wNew := add32 (add32 (sigma1 (w.getD (l - 2) 0)) (w.getD (l - 7) 0))
                      (add32 (sigma0 (w.getD (l - 15) 0)) (w.getD (l - 16) 0))
    extendW n (w ++ [wNew])

/-- The eight working variables of the SHA-256 state. -/
structure H8 where
  a : Nat
  b : Nat
  c : Nat
  d : Nat
  e : Nat
  f : Nat
  g : Nat
  h : Nat
deriving Repr, DecidableEq

/-- SHA-256 state at the start of hashing, written in decimal. -/
def initH : H8 :=
  ⟨1779033703, 3144134277, 1013904242, 2773480762,
   1359893119, 2600822924, 528734635, 1541459225⟩

/-- One compression round, consuming one (round constant, schedule word)
pair. -/
def compressStep (st : H8) (kw : Nat × Nat) : H8 :=
  let t1 := add32 st.h (add32 (bigSigma1 st.e) (add32 (ch st.e st.f st.g) (add32 kw.1 kw.2)))
  let t2 := add32 (bigSigma0 st.a) (maj st.a st.b st.c)
  ⟨add32 t1 t2, st.a, st.b, st.c, add32 st.d t1, st.e, st.f, st.g⟩

/-- Processing of one 16-word chunk: 64 compression rounds, then addition
into the incoming state. -/
def compressChunk (st : H8) (chunk : List Nat) : H8 :=
  let ws := extendW 48 chunk
  let f := (K64.zip ws).foldl compressStep st
  ⟨add32 st.a f.a, add32 st.b f.b, add32 st.c f.c, add32 st.d f.d,
   add32 st.e f.e, add32 st.f f.f, add32 st.g f.g, add32 st.h f.h⟩

/-- SHA-256 padding: a 0x80 byte, zeros up to 56 mod 64, then the bit length
as eight big-endian bytes. -/
def padBytes (msg : List Nat) : List Nat :=
  let L := msg.length
  let z := (120 - (L + 1) % 64) % 64
  let bitLen := 8 * L
  msg ++ [128] ++ List.replicate z 0 ++
    [(bitLen >>> 56) % 256, (bitLen >>> 48) % 256, (bitLen >>> 40) % 256,
     (bitLen >>> 32) % 256, (bitLen >>> 24) % 256, (bitLen >>> 16) % 256,
     (bitLen >>> 8) % 256, bitLen % 256]

/-- Big-endian packing of bytes into 32-bit words. -/
def bytesToWords : List Nat → List Nat
  | b1 :: b2 :: b3 :: b4 :: rest =>
      ((b1 <<< 24) ||| (b2 <<< 16) ||| (b3 <<< 8) ||| b4) :: bytesToWords rest
  | _ => []

/-- Splitting of the padded word list into 16-word chunks (the padded input
always has a multiple of 16 words). -/
def chunks16 : List Nat → List (List Nat)
  | w1 :: w2 :: w3 :: w4 :: w5 :: w6 :: w7 :: w8 ::
    w9 :: w10 :: w11 :: w12 :: w13 :: w14 :: w15 :: w16 :: rest =>
      [w1, w2, w3, w4, w5, w6, w7, w8, w9, w10, w11, w12, w13, w14, w15, w16] ::
        chunks16 rest
  | _ => []

/-- The SHA-256 digest of a byte list, as eight 32-bit words. -/
def sha256 (msg : List Nat) : H8 :=
  (chunks16 (bytesToWords (padBytes msg))).foldl compressChunk initH

/-- The sixteen lowercase hex digit characters. -/
def hexChars : List Char := "0123456789abcdef".toList

/-- The hex digit character for a nibble. -/
def hexdigit (n : Nat) : Char := hexChars.getD n (Char.ofNat 48)

/-- A 32-bit word as eight hex characters, most significant nibble first. -/
def toHex8 (w : Nat) : List Char :=
  [hexdigit ((w >>> 28) % 16), hexdigit ((w >>> 24) % 16), hexdigit ((w >>> 20) % 16),
   hexdigit ((w >>> 16) % 16), hexdigit ((w >>> 12) % 16), hexdigit ((w >>> 8) % 16),
   hexdigit ((w >>> 4) % 16), hexdigit (w % 16)]

/-- The character list of hashlib hexdigest: 64 lowercase hex characters. -/
def sha256HexChars (msg : List Nat) : List Char :=
  let d := sha256 msg
  toHex8 d.a ++ toHex8 d.b ++ toHex8 d.c ++ toHex8 d.d ++
  toHex8 d.e ++ toHex8 d.f ++ toHex8 d.g ++ toHex8 d.h

/-- UTF-8 encoding of one character (str.encode()). -/
def utf8EncodeChar (c : Char) : List Nat :=
  let n := c.toNat
  if n < 128 then [n]
  else if n < 2048 then [192 ||| (n >>> 6), 128 ||| (n % 64)]
  else if n < 65536 then
    [224 ||| (n >>> 12), 128 ||| ((n >>> 6) % 64), 128 ||| (n % 64)]
  else
    [240 ||| (n >>> 18), 128 ||| ((n >>> 12) % 64), 128 ||| ((n >>> 6) % 64), 128 ||| (n % 64)]

/-- UTF-8 bytes of a string. -/
def strBytes (s : String) : List Nat := (s.data.map utf8EncodeChar).flatten

/-- generate_device_id (main.py lines 54-62): the first 16 characters of the
SHA-256 hexdigest of "ip:userAgent:deviceInfoJson".  The device_info argument
stands for json.dumps(camera_info, sort_keys=True). -/
def generate_device_id (ip user_agent device_info : String) : String :=
  let device_string := ip ++ ":" ++ user_agent ++ ":" ++ device_info
  String.mk ((sha256HexChars (strBytes device_string)).take 16)

/-- proxy_to_gemini (main.py lines 169-213): on upstream success the token
count of usageMetadata is reported with success true; any timeout, request
failure or unexpected error reports success false (ai_proxy then reads
tokens_used with default 0). -/
def proxy_to_gemini (upstream : Except Unit Nat) : Bool × Nat :=
  match upstream with
  | Except.ok tokens_used => (true, tokens_used)
  | Except.error _ => (false, 0)

/-- ai_proxy (main.py lines 216-284).  Output: HTTP status, usage store after
the request, pooled-key store after the request, and whether track_usage was
invoked.  `upstream` stands for the outcome of the Gemini call. -/
def ai_proxy (method : String) (has_body : Bool)
    (ip user_agent device_info : String) (s : Store) (keys : List PooledKey)
    (secrets : String → Option String) (upstream : Except Unit Nat) (now : Int) :
    Nat × Store × List PooledKey × Bool :=
  if method = "OPTIONS" then (204, s, keys, false)
  else if method ≠ "POST" then (405, s, keys, false)
  else if ¬ has_body then (400, s, keys, false)
  else
    let device_id := generate_device_id ip user_agent device_info
    match checkStep s device_id now with
    | ((allowed, _msg), s1) =>
      if ¬ allowed then (429, s1, keys, false)
      else
        match get_next_available_key keys secrets with
        | none => (503, s1, keys, false)
        | some _api_key =>
          let result := proxy_to_gemini upstream
          let s2 := track_usage s1 device_id result.1 result.2 now
          (if result.1 then 200 else 500, s2, keys, true)

/-- Stand-in for the external datetime isoformat rendering of a stored
timestamp. -/
def isoformat (t : Int) : String := toString t

/-- get_device_status (main.py lines 288-337).  The device id comes from the
query string when present and nonempty, otherwise it is regenerated from the
request; `readFails` models an exception while reading the usage document
(the except branch returns 500). -/
def get_device_status (method : String) (device_id_arg : Option String)
    (ip user_agent device_info : String) (s : Store) (readFails : Bool) :
    Nat × Body :=
  if method = "OPTIONS" then (204, Body.text "")
  else
    let device_id :=
      match device_id_arg with
      | some d => if d = "" then generate_device_id ip user_agent device_info else d
      | none => generate_device_id ip user_agent device_info
    if readFails then (500, Body.obj [("error", JVal.s "Failed to get status")])
    else
      match s device_id with
      | none =>
          (200, Body.obj
            [("device_id", JVal.s device_id),
             ("status", JVal.s "new"),
             ("requests_used", JVal.n 0),
             ("requests_remaining", JVal.n (requests_per_device : Int)),
             ("daily_limit", JVal.n (requests_per_day : Int))])
      | some usage_data =>
          let total_requests := usage_data.total_requests
          (200, Body.obj
            [("device_id", JVal.s device_id),
             ("status", JVal.s
               (if total_requests < requests_per_device then "active" else "limit_reached")),
             ("requests_used", JVal.n (total_requests : Int)),
             ("requests_remaining",
               JVal.n (max 0 ((requests_per_device : Int) - (total_requests : Int)))),
             ("daily_limit", JVal.n (requests_per_day : Int)),
             ("created_at", JVal.s (isoformat usage_data.created_at))])

/-- Repeated calls of check_rate_limits (at the given sequence of times)
without any intervening track_usage. -/
def iterCheckTimes (device_id : String) : List Int → Store → Store
  | [], s => s
  | t :: ts, s => iterCheckTimes device_id ts (checkStep s device_id t).2

/-- An operation of this core touching the usage store. -/
inductive Op where
  | check (now : Int)
  | track (success : Bool) (tokens_used : Nat) (now : Int)

/-- Effect of one operation on the usage store. -/
def runOp (s : Store) (device_id : String) : Op → Store
  | Op.check now => (checkStep s device_id now).2
  | Op.track success tokens_used now => track_usage s device_id success tokens_used now

/-- Effect of a sequence of operations on the usage store. -/
def runOps (s : Store) (device_id : String) : List Op → Store
  | [] => s
  | op :: ops => runOps (runOp s device_id op) device_id ops

/-- The total_requests counter of a fingerprint (0 when no record exists). -/
def totalOf (s : Store) (device_id : String) : Nat :=
  match s device_id with
  | none => 0
  | some r => r.total_requests

/-- A character list made of lowercase hex digits only. -/
def isHexString (l : List Char) : Bool := l.all (fun c => hexChars.contains c)

/-- The field names of a JSON object body. -/
def fieldNames (b : Body) : List String :=
  match b with
  | Body.obj fields => fields.map Prod.fst
  | Body.text _ => []

/-! Helper lemmas about one check_rate_limits call against the store. -/

/-- With an existing usage document, a check returns the document cascade
result and performs no write. -/
theorem checkStep_existing (s : Store) (device_id : String) (r : UsageRecord)
    (now : Int) (hr : s device_id = some r) :
    checkStep s device_id now = (check_rate_limits_doc r now, s) := by
  simp [checkStep, check_rate_limits, hr]

/-- With no usage document, a check allows the request and writes the fresh
zero record. -/
theorem checkStep_first_time (s : Store) (device_id : String) (now : Int)
    (hr : s device_id = none) :
    checkStep s device_id now =
      ((true, "First time user"),
       fun k => if k = device_id then some (initRecord now) else s k) := by
  simp [checkStep, check_rate_limits, hr]

/-- A check either leaves the store unchanged or (first-time only) writes the
zero record. -/
theorem checkStep_store_cases (s : Store) (device_id : String) (now : Int) :
    (checkStep s device_id now).2 = s ∨
      (s device_id = none ∧ (checkStep s device_id now).2 =
        fun k => if k = device_id then some (initRecord now) else s k) := by
  cases hr : s device_id with
  | none => exact Or.inr ⟨rfl, by rw [checkStep_first_time s device_id now hr]⟩
  | some r => exact Or.inl (by rw [checkStep_existing s device_id r now hr])

/-- A denied check never writes. -/
theorem checkStep_denied (s : Store) (device_id : String) (now : Int)
    (h : (checkStep s device_id now).1.1 = false) :
    (checkStep s device_id now).2 = s := by
  cases hr : s device_id with
  | none => rw [checkStep_first_time s device_id now hr] at h; simp at h
  | some r => rw [checkStep_existing s device_id r now hr]

/-- Claim C1: for a fingerprint with an existing usage record, checkQuota
evaluates the lifetime cap first (denying with the upgrade message regardless
of window contents), then the windows pruned to their horizons of 60, 3600
and 86400 seconds, denying on the per-minute, per-hour, per-day ceilings in
that ascending order, the first exceeded limit determining the reason; when
none is exceeded the request is allowed. -/
theorem checkQuota_evaluation_order (s : Store) (device_id : String)
    (r : UsageRecord) (now : Int) (hr : s device_id = some r) :
    (r.total_requests ≥ requests_per_device →
       (checkStep s device_id now).1 =
         (false, "Demo limit reached. Please upgrade to continue."))
    ∧ (r.total_requests < requests_per_device →
       (pruneWindow (now - 60) r.requests_this_minute).length ≥ requests_per_minute →
       (checkStep s device_id now).1 =
         (false, "Rate limit exceeded. Please wait a minute."))
    ∧ (r.total_requests < requests_per_device →
       (pruneWindow (now - 60) r.requests_this_minute).length < requests_per_minute →
       (pruneWindow (now - 3600) r.requests_this_hour).length ≥ requests_per_hour →
       (checkStep s device_id now).1 = (false, "Hourly limit reached. Please wait."))
    ∧ (r.total_requests < requests_per_device →
       (pruneWindow (now - 60) r.requests_this_minute).length < requests_per_minute →
       (pruneWindow (now - 3600) r.requests_this_hour).length < requests_per_hour →
       (pruneWindow (now - 86400) r.requests_this_day).length ≥ requests_per_day →
       (checkStep s device_id now).1 = (false, "Daily limit reached. Try again tomorrow."))
    ∧ (r.total_requests < requests_per_device →
       (pruneWindow (now - 60) r.requests_this_minute).length < requests_per_minute →
       (pruneWindow (now - 3600) r.requests_this_hour).length < requests_per_hour →
       (pruneWindow (now - 86400) r.requests_this_day).length < requests_per_day →
       (checkStep s device_id now).1 = (true, "Within limits")) := by
  rw [checkStep_existing s device_id r now hr]
  refine ⟨fun h1 => ?_, fun h1 h2 => ?_, fun h1 h2 h3 => ?_,
          fun h1 h2 h3 h4 => ?_, fun h1 h2 h3 h4 => ?_⟩ <;>
    simp only [check_rate_limits_doc] <;> split_ifs <;> first | rfl | omega

/-- Witness for C1: each branch of the cascade reached at a concrete record. -/
theorem checkQuota_evaluation_order_witness :
    (checkStep (fun _ => some { initRecord 0 with total_requests := 1000 }) "d" 5).1 =
        (false, "Demo limit reached. Please upgrade to continue.")
    ∧ (checkStep (fun _ => some
        { initRecord 0 with requests_this_minute := [1, 1, 1, 1, 1, 1, 1, 1, 1, 1] }) "d" 5).1 =
        (false, "Rate limit exceeded. Please wait a minute.")
    ∧ (checkStep (fun _ => some
        { initRecord 0 with requests_this_hour := List.replicate 100 1 }) "d" 5).1 =
        (false, "Hourly limit reached. Please wait.")
    ∧ (checkStep (fun _ => some
        { initRecord 0 with requests_this_day := List.replicate 500 1 }) "d" 5).1 =
        (false, "Daily limit reached. Try again tomorrow.")
    ∧ (checkStep (fun _ => some (initRecord 0)) "d" 5).1 = (true, "Within limits") :=
  ⟨(checkQuota_evaluation_order _ "d" _ 5 rfl).1 (by decide),
   (checkQuota_evaluation_order _ "d" _ 5 rfl).2.1 (by decide) (by decide),
   (checkQuota_evaluation_order _ "d" _ 5 rfl).2.2.1 (by decide) (by decide) (by decide),
   (checkQuota_evaluation_order _ "d" _ 5 rfl).2.2.2.1 (by decide) (by decide) (by decide)
     (by decide),
   (checkQuota_evaluation_order _ "d" _ 5 rfl).2.2.2.2 (by decide) (by decide) (by decide)
     (by decide)⟩

/-- Claim C3: any number of checkQuota calls without an intervening
recordUsage leaves the store, hence the stored usage record with all its
counters and windows, unchanged. -/
theorem checkQuota_no_mutation (s : Store) (device_id : String) (r : UsageRecord)
    (ts : List Int) (hr : s device_id = some r) :
    iterCheckTimes device_id ts s = s := by
  induction ts with
  | nil => rfl
  | cons t ts ih =>
      have h := checkStep_existing s device_id r t hr
      simp only [iterCheckTimes, h]
      exact ih

/-- Witness for C3: three repeated checks at a concrete record. -/
theorem checkQuota_no_mutation_witness :
    iterCheckTimes "d" [1, 2, 3] (fun _ => some (initRecord 0)) =
      (fun _ => some (initRecord 0)) :=
  checkQuota_no_mutation _ "d" (initRecord 0) [1, 2, 3] rfl

/-- Claim C6: a backing-store error during the read, or during the write that
creates the first-time record, makes checkQuota deny with "Service error";
an allowed result is only ever produced from a successful read. -/
theorem check_rate_limits_fail_closed :
    (∀ (setFails : Bool) (now : Int),
       check_rate_limits (Except.error ()) setFails now = ((false, "Service error"), none))
    ∧ (∀ now : Int,
       check_rate_limits (Except.ok none) true now = ((false, "Service error"), none))
    ∧ (∀ (getRes : Except Unit (Option UsageRecord)) (setFails : Bool) (now : Int),
       (check_rate_limits getRes setFails now).1.1 = true →
         ∃ v, getRes = Except.ok v) := by
  refine ⟨fun _ _ => rfl, fun _ => rfl, fun getRes setFails now h => ?_⟩
  cases getRes with
  | error e => simp [check_rate_limits] at h
  | ok v => exact ⟨v, rfl⟩

/-- Witness for C6: a concrete store error is denied; a concrete allowed
check came from a successful read. -/
theorem check_rate_limits_fail_closed_witness :
    check_rate_limits (Except.error ()) false 0 = ((false, "Service error"), none)
    ∧ ∃ v, (Except.ok (some (initRecord 3)) : Except Unit (Option UsageRecord)) =
        Except.ok v :=
  ⟨check_rate_limits_fail_closed.1 false 0,
   check_rate_limits_fail_closed.2.2 (Except.ok (some (initRecord 3))) false 3 (by decide)⟩

/-- Every nibble renders to a hex character. -/
theorem hexdigit_mem : ∀ n < 16, hexChars.contains (hexdigit n) = true := by decide

/-- The eight characters of a rendered word are hex characters. -/
theorem toHex8_hex (w : Nat) : isHexString (toHex8 w) = true := by
  simp only [isHexString, toHex8, List.all_cons, List.all_nil, Bool.and_eq_true,
    and_true]
  refine ⟨?_, ?_, ?_, ?_, ?_, ?_, ?_, ?_⟩ <;>
    exact hexdigit_mem _ (Nat.mod_lt _ (by omega))

/-- Hex strings are closed under concatenation. -/
theorem isHexString_append (l1 l2 : List Char) :
    isHexString (l1 ++ l2) = (isHexString l1 && isHexString l2) := by
  simp [isHexString, List.all_append]

/-- The hexdigest character list is all hex. -/
theorem sha256HexChars_hex (msg : List Nat) : isHexString (sha256HexChars msg) = true := by
  simp only [sha256HexChars, isHexString_append, toHex8_hex, Bool.and_self]

/-- A prefix of a hex string is a hex string. -/
theorem isHexString_take (l : List Char) (n : Nat) (h : isHexString l = true) :
    isHexString (l.take n) = true := by
  simp only [isHexString, List.all_eq_true] at h ⊢
  exact fun c hc => h c (List.take_subset n l hc)

/-- The hexdigest has exactly 64 characters. -/
theorem sha256HexChars_length (msg : List Nat) : (sha256HexChars msg).length = 64 := by
  simp [sha256HexChars, toHex8]

/-- Claim C4: the fingerprint is a deterministic function of the source ip,
user agent and device info: equal inputs give equal fingerprints, and every
fingerprint is a fixed-length (16 character) lowercase hex string. -/
theorem generate_device_id_deterministic_hex :
    (∀ ip ua info ip2 ua2 info2 : String, ip = ip2 → ua = ua2 → info = info2 →
       generate_device_id ip ua info = generate_device_id ip2 ua2 info2)
    ∧ (∀ ip ua info : String,
       (generate_device_id ip ua info).length = 16
       ∧ isHexString (generate_device_id ip ua info).data = true) := by
  constructor
  · intro ip ua info ip2 ua2 info2 h1 h2 h3
    subst h1; subst h2; subst h3; rfl
  · intro ip ua info
    constructor
    · show (String.mk ((sha256HexChars (strBytes (ip ++ ":" ++ ua ++ ":" ++ info))).take 16)).length = 16
      simp [String.length, List.length_take, sha256HexChars_length]
    · show isHexString ((sha256HexChars (strBytes (ip ++ ":" ++ ua ++ ":" ++ info))).take 16) = true
      exact isHexString_take _ 16 (sha256HexChars_hex _)

/-- Witness for C4: determinism and length at a concrete request. -/
theorem generate_device_id_deterministic_hex_witness :
    generate_device_id "203.0.113.7" "AxisCam/1.0" "model-q1656" =
      generate_device_id "203.0.113.7" "AxisCam/1.0" "model-q1656"
    ∧ (generate_device_id "203.0.113.7" "AxisCam/1.0" "model-q1656").length = 16 :=
  ⟨generate_device_id_deterministic_hex.1 _ _ _ _ _ _ rfl rfl rfl,
   (generate_device_id_deterministic_hex.2 "203.0.113.7" "AxisCam/1.0" "model-q1656").1⟩

/-- Claim C2, divergence: with k1 active at its own quota (1500 of 1500) and
k2 active and under its own quota (1600 of 5000), the pool still has an
eligible key, yet the code returns no key because the fallback query uses the
hardcoded threshold 1000 instead of the own daily_quota of each key; the selection
worded as the spec intends it picks k2. -/
theorem get_next_available_key_hardcoded_fallback :
    get_next_available_key
      [⟨"k1", true, 1500, 1500⟩, ⟨"k2", true, 1600, 5000⟩] (fun n => some n) = none
    ∧ selectPooledKey_specIntent
      [⟨"k1", true, 1500, 1500⟩, ⟨"k2", true, 1600, 5000⟩] (fun n => some n) =
        some "ai-key-k2"
    ∧ (⟨"k2", true, 1600, 5000⟩ : PooledKey).active = true
    ∧ (⟨"k2", true, 1600, 5000⟩ : PooledKey).used_today <
        (⟨"k2", true, 1600, 5000⟩ : PooledKey).daily_quota := by decide

/-- Claim C7, divergence: a request served with the selected pooled key (the
run returns 200) leaves the pooled-key store byte-for-byte unchanged: the
used_today counter of the chosen key k1 stays 3 and is not incremented to 4;
the code contains no write to the shared_ai_keys collection. -/
theorem ai_proxy_keys_unwritten :
    (ai_proxy "POST" true "ip" "ua" "info" (fun _ => some (initRecord 0))
        [⟨"k1", true, 3, 1000⟩] (fun n => some n) (Except.ok 5) 100).1 = 200
    ∧ (ai_proxy "POST" true "ip" "ua" "info" (fun _ => some (initRecord 0))
        [⟨"k1", true, 3, 1000⟩] (fun n => some n) (Except.ok 5) 100).2.2.1 =
        [⟨"k1", true, 3, 1000⟩]
    ∧ ¬ ((ai_proxy "POST" true "ip" "ua" "info" (fun _ => some (initRecord 0))
        [⟨"k1", true, 3, 1000⟩] (fun n => some n) (Except.ok 5) 100).2.2.1 =
        [⟨"k1", true, 4, 1000⟩]) := by decide

/-- Counterexample to C5 as stated: when the current timestamp is already
present in a window (two requests in the same instant), ArrayUnion does not
append it, so the minute window stays [5] instead of gaining a second entry. -/
theorem track_usage_duplicate_timestamp_cex :
    (track_usage (fun _ => some { initRecord 0 with requests_this_minute := [5] })
        "d" true 0 5) "d" =
      some { created_at := 0, total_requests := 1, successful_requests := 1,
             total_tokens := 0, last_request := some 5,
             requests_this_minute := [5], requests_this_hour := [5],
             requests_this_day := [5] }
    ∧ Option.map UsageRecord.requests_this_minute
        ((track_usage (fun _ => some { initRecord 0 with requests_this_minute := [5] })
          "d" true 0 5) "d") ≠ some ([5] ++ [5]) := by decide

/-- The ArrayUnion result always contains the added element. -/
theorem mem_arrayUnion (l : List Int) (x : Int) : x ∈ arrayUnion l x := by
  simp only [arrayUnion]
  split_ifs with h
  · exact h
  · simp

/-- One operation never decreases the total_requests counter. -/
theorem totalOf_runOp (s : Store) (device_id : String) (op : Op) :
    totalOf s device_id ≤ totalOf (runOp s device_id op) device_id := by
  cases op with
  | check now =>
      rcases checkStep_store_cases s device_id now with h | ⟨hn, h⟩
      · simp [runOp, h]
      · simp [runOp, h, totalOf, hn, initRecord]
  | track success tokens_used now =>
      cases hr : s device_id with
      | none => simp [runOp, track_usage, hr]
      | some r => simp [runOp, track_usage, hr, totalOf, track_usage_doc]

/-- Claim C5 as amended: for an existing record, recordUsage increments
total_requests by exactly one, increments successful_requests exactly when
success holds, adds the consumed tokens, sets last_request to now, and adds
the current timestamp to the three windows with ArrayUnion semantics
(appended when not already present, always a member afterwards); the
total_requests counter never decreases over any operation sequence. -/
theorem track_usage_spec :
    (∀ (s : Store) (device_id : String) (r : UsageRecord) (success : Bool)
       (tokens_used : Nat) (now : Int), s device_id = some r →
       (track_usage s device_id success tokens_used now) device_id =
           some (track_usage_doc r now success tokens_used)
       ∧ (track_usage_doc r now success tokens_used).total_requests =
           r.total_requests + 1
       ∧ (track_usage_doc r now success tokens_used).successful_requests =
           r.successful_requests + (if success then 1 else 0)
       ∧ (track_usage_doc r now success tokens_used).total_tokens =
           r.total_tokens + tokens_used
       ∧ (track_usage_doc r now success tokens_used).last_request = some now
       ∧ (now ∉ r.requests_this_minute →
           (track_usage_doc r now success tokens_used).requests_this_minute =
             r.requests_this_minute ++ [now])
       ∧ (now ∉ r.requests_this_hour →
           (track_usage_doc r now success tokens_used).requests_this_hour =
             r.requests_this_hour ++ [now])
       ∧ (now ∉ r.requests_this_day →
           (track_usage_doc r now success tokens_used).requests_this_day =
             r.requests_this_day ++ [now])
       ∧ now ∈ (track_usage_doc r now success tokens_used).requests_this_minute
       ∧ now ∈ (track_usage_doc r now success tokens_used).requests_this_hour
       ∧ now ∈ (track_usage_doc r now success tokens_used).requests_this_day)
    ∧ (∀ (s : Store) (device_id : String) (ops : List Op),
       totalOf s device_id ≤ totalOf (runOps s device_id ops) device_id) := by
  constructor
  · intro s device_id r success tokens_used now hr
    refine ⟨by simp [track_usage, hr], rfl, rfl, rfl, rfl,
            fun h => by simp [track_usage_doc, arrayUnion, h],
            fun h => by simp [track_usage_doc, arrayUnion, h],
            fun h => by simp [track_usage_doc, arrayUnion, h],
            mem_arrayUnion _ _, mem_arrayUnion _ _, mem_arrayUnion _ _⟩
  · intro s device_id ops
    induction ops generalizing s with
    | nil => exact le_refl _
    | cons op ops ih =>
        calc totalOf s device_id ≤ totalOf (runOp s device_id op) device_id :=
              totalOf_runOp s device_id op
          _ ≤ totalOf (runOps (runOp s device_id op) device_id ops) device_id := ih _
          _ = totalOf (runOps s device_id (op :: ops)) device_id := rfl

/-- Witness for C5: a concrete record gains one request, the fresh timestamp
is appended, and a concrete operation sequence keeps the counter
non-decreasing. -/
theorem track_usage_spec_witness :
    (track_usage (fun _ => some (initRecord 0)) "d" true 7 5) "d" =
        some (track_usage_doc (initRecord 0) 5 true 7)
    ∧ (track_usage_doc (initRecord 0) 5 true 7).requests_this_minute =
        (initRecord 0).requests_this_minute ++ [5]
    ∧ totalOf (fun _ => some (initRecord 0)) "d" ≤
        totalOf (runOps (fun _ => some (initRecord 0)) "d"
          [Op.check 1, Op.track true 0 2]) "d" :=
  ⟨(track_usage_spec.1 (fun _ => some (initRecord 0)) "d" (initRecord 0) true 7 5 rfl).1,
   (track_usage_spec.1 (fun _ => some (initRecord 0)) "d" (initRecord 0) true 7 5
      rfl).2.2.2.2.2.1 (by decide),
   track_usage_spec.2 (fun _ => some (initRecord 0)) "d" [Op.check 1, Op.track true 0 2]⟩

/-- Counterexample to C8 as stated: when the Firebase app set is empty the
initialization check precedes the method check, so a GET request is answered
500, not 405. -/
theorem device_authenticator_uninit_get_cex :
    (device_authenticator false "GET" (some (some "dev1")) (fun d => Except.ok d)).1 = 500
    ∧ (device_authenticator false "GET" (some (some "dev1")) (fun d => Except.ok d)).1
        ≠ 405 := by decide

/-- Claim C8 as amended: with the SDK initialized, every non-POST,
non-OPTIONS method is answered 405; with it uninitialized every non-OPTIONS
method is answered 500 (the initialization check precedes the method check);
a POST with a missing body, missing device_id or empty device_id is answered
400; a POST whose token signing fails is answered 500; a successful POST
returns 200 with a body whose firebase_custom_token field is the signed
token string.  The temp-functions variant behaves the same on these points,
except that it has no OPTIONS branch: with the SDK initialized its 405
covers every non-POST method including OPTIONS, and with the SDK
uninitialized every request of any method is answered 500; its 400 branches
(missing body, missing device_id, empty device_id) and its signing-failure
500 are as in the updated variant. -/
theorem device_authenticator_spec :
    (∀ (method : String) (req_json : Option (Option String))
       (signer : String → Except Unit String), method ≠ "POST" → method ≠ "OPTIONS" →
       (device_authenticator true method req_json signer).1 = 405)
    ∧ (∀ (method : String) (req_json : Option (Option String))
       (signer : String → Except Unit String), method ≠ "OPTIONS" →
       (device_authenticator false method req_json signer).1 = 500)
    ∧ (∀ signer : String → Except Unit String,
       (device_authenticator true "POST" none signer).1 = 400)
    ∧ (∀ signer : String → Except Unit String,
       (device_authenticator true "POST" (some none) signer).1 = 400)
    ∧ (∀ signer : String → Except Unit String,
       (device_authenticator true "POST" (some (some "")) signer).1 = 400)
    ∧ (∀ (d : String) (signer : String → Except Unit String), d ≠ "" →
       signer d = Except.error () →
       (device_authenticator true "POST" (some (some d)) signer).1 = 500)
    ∧ (∀ (d tok : String) (signer : String → Except Unit String), d ≠ "" →
       signer d = Except.ok tok →
       device_authenticator true "POST" (some (some d)) signer =
         (200, Body.obj [("firebase_custom_token", JVal.s tok)]))
    ∧ (∀ (method : String) (req_json : Option (Option String))
       (signer : String → Except Unit String), method ≠ "POST" →
       (device_authenticator_v2 true method req_json signer).1 = 405)
    ∧ (∀ (d tok : String) (signer : String → Except Unit String), d ≠ "" →
       signer d = Except.ok tok →
       device_authenticator_v2 true "POST" (some (some d)) signer =
         (200, Body.obj [("firebase_custom_token", JVal.s tok)]))
    ∧ (∀ (method : String) (req_json : Option (Option String))
       (signer : String → Except Unit String),
       (device_authenticator_v2 false method req_json signer).1 = 500)
    ∧ (∀ signer : String → Except Unit String,
       (device_authenticator_v2 true "POST" none signer).1 = 400)
    ∧ (∀ signer : String → Except Unit String,
       (device_authenticator_v2 true "POST" (some none) signer).1 = 400)
    ∧ (∀ signer : String → Except Unit String,
       (device_authenticator_v2 true "POST" (some (some "")) signer).1 = 400)
    ∧ (∀ (d : String) (signer : String → Except Unit String), d ≠ "" →
       signer d = Except.error () →
       (device_authenticator_v2 true "POST" (some (some d)) signer).1 = 500) := by
  refine ⟨?_, ?_, ?_, ?_, ?_, ?_, ?_, ?_, ?_, ?_, ?_, ?_, ?_, ?_⟩
  · intro method req_json signer h1 h2
    simp [device_authenticator, h1, h2]
  · intro method req_json signer h1
    simp [device_authenticator, h1]
  · intro signer; simp [device_authenticator]
  · intro signer; simp [device_authenticator]
  · intro signer; simp [device_authenticator]
  · intro d signer hd hs
    simp [device_authenticator, hd, hs]
  · intro d tok signer hd hs
    simp [device_authenticator, hd, hs]
  · intro method req_json signer h1
    simp [device_authenticator_v2, h1]
  · intro d tok signer hd hs
    simp [device_authenticator_v2, hd, hs]
  · intro method req_json signer
    simp [device_authenticator_v2]
  · intro signer; simp [device_authenticator_v2]
  · intro signer; simp [device_authenticator_v2]
  · intro signer; simp [device_authenticator_v2]
  · intro d signer hd hs
    simp [device_authenticator_v2, hd, hs]

/-- Witness for C8: every branch of the amended behavior at concrete
requests. -/
theorem device_authenticator_spec_witness :
    (device_authenticator true "GET" (some (some "dev1")) (fun d => Except.ok d)).1 = 405
    ∧ (device_authenticator false "GET" (some (some "dev1")) (fun d => Except.ok d)).1 = 500
    ∧ (device_authenticator true "POST" none (fun d => Except.ok d)).1 = 400
    ∧ (device_authenticator true "POST" (some none) (fun d => Except.ok d)).1 = 400
    ∧ (device_authenticator true "POST" (some (some "")) (fun d => Except.ok d)).1 = 400
    ∧ (device_authenticator true "POST" (some (some "dev1"))
        (fun _ => Except.error ())).1 = 500
    ∧ device_authenticator true "POST" (some (some "dev1")) (fun _ => Except.ok "tok") =
        (200, Body.obj [("firebase_custom_token", JVal.s "tok")])
    ∧ (device_authenticator_v2 true "OPTIONS" (some (some "dev1"))
        (fun d => Except.ok d)).1 = 405
    ∧ device_authenticator_v2 true "POST" (some (some "dev1")) (fun _ => Except.ok "tok") =
        (200, Body.obj [("firebase_custom_token", JVal.s "tok")])
    ∧ (device_authenticator_v2 false "OPTIONS" (some (some "dev1"))
        (fun d => Except.ok d)).1 = 500
    ∧ (device_authenticator_v2 true "POST" none (fun d => Except.ok d)).1 = 400
    ∧ (device_authenticator_v2 true "POST" (some none) (fun d => Except.ok d)).1 = 400
    ∧ (device_authenticator_v2 true "POST" (some (some "")) (fun d => Except.ok d)).1 = 400
    ∧ (device_authenticator_v2 true "POST" (some (some "dev1"))
        (fun _ => Except.error ())).1 = 500 := by
  obtain ⟨t1, t2, t3, t4, t5, t6, t7, t8, t9, t10, t11, t12, t13, t14⟩ :=
    device_authenticator_spec
  exact ⟨t1 "GET" _ _ (by decide) (by decide),
    t2 "GET" _ _ (by decide),
    t3 _, t4 _, t5 _,
    t6 "dev1" _ (by decide) rfl,
    t7 "dev1" "tok" _ (by decide) rfl,
    t8 "OPTIONS" _ _ (by decide),
    t9 "dev1" "tok" _ (by decide) rfl,
    t10 "OPTIONS" (some (some "dev1")) _,
    t11 _, t12 _, t13 _,
    t14 "dev1" _ (by decide) rfl⟩

/-- Counterexample to C9 as stated: for a device with no usage record the
response has no created_at field. -/
theorem get_device_status_new_no_created_at_cex :
    (get_device_status "GET" (some "dev9") "ip" "ua" "info" (fun _ => none) false).2 =
      Body.obj [("device_id", JVal.s "dev9"), ("status", JVal.s "new"),
        ("requests_used", JVal.n 0), ("requests_remaining", JVal.n 1000),
        ("daily_limit", JVal.n 500)]
    ∧ "created_at" ∉ fieldNames
        (get_device_status "GET" (some "dev9") "ip" "ua" "info"
          (fun _ => none) false).2 := by decide

/-- Claim C9 as amended: the response carries device_id, status,
requests_used, requests_remaining and daily_limit always, and created_at
exactly when a usage record exists; status is new exactly when no record
exists, active exactly when a record exists with total_requests under the
lifetime cap, limit_reached otherwise; requests_remaining is
max 0 (cap - total_requests). -/
theorem get_device_status_spec :
    (∀ (s : Store) (d ip ua info : String), d ≠ "" → s d = none →
       get_device_status "GET" (some d) ip ua info s false =
         (200, Body.obj [("device_id", JVal.s d), ("status", JVal.s "new"),
           ("requests_used", JVal.n 0),
           ("requests_remaining", JVal.n (requests_per_device : Int)),
           ("daily_limit", JVal.n (requests_per_day : Int))]))
    ∧ (∀ (s : Store) (d ip ua info : String) (r : UsageRecord), d ≠ "" →
       s d = some r →
       get_device_status "GET" (some d) ip ua info s false =
         (200, Body.obj [("device_id", JVal.s d),
           ("status", JVal.s (if r.total_requests < requests_per_device then "active"
              else "limit_reached")),
           ("requests_used", JVal.n (r.total_requests : Int)),
           ("requests_remaining",
              JVal.n (max 0 ((requests_per_device : Int) - (r.total_requests : Int)))),
           ("daily_limit", JVal.n (requests_per_day : Int)),
           ("created_at", JVal.s (isoformat r.created_at))]))
    ∧ (∀ (s : Store) (d ip ua info : String) (r : UsageRecord), d ≠ "" →
       s d = some r →
       "created_at" ∈
         fieldNames (get_device_status "GET" (some d) ip ua info s false).2)
    ∧ (∀ (s : Store) (d ip ua info : String), d ≠ "" → s d = none →
       "created_at" ∉
         fieldNames (get_device_status "GET" (some d) ip ua info s false).2) := by
  have hnew : ∀ (s : Store) (d ip ua info : String), d ≠ "" → s d = none →
      get_device_status "GET" (some d) ip ua info s false =
        (200, Body.obj [("device_id", JVal.s d), ("status", JVal.s "new"),
          ("requests_used", JVal.n 0),
          ("requests_remaining", JVal.n (requests_per_device : Int)),
          ("daily_limit", JVal.n (requests_per_day : Int))]) := by
    intro s d ip ua info hd hn
    simp [get_device_status, hd, hn]
  have hex : ∀ (s : Store) (d ip ua info : String) (r : UsageRecord), d ≠ "" →
      s d = some r →
      get_device_status "GET" (some d) ip ua info s false =
        (200, Body.obj [("device_id", JVal.s d),
          ("status", JVal.s (if r.total_requests < requests_per_device then "active"
             else "limit_reached")),
          ("requests_used", JVal.n (r.total_requests : Int)),
          ("requests_remaining",
             JVal.n (max 0 ((requests_per_device : Int) - (r.total_requests : Int)))),
          ("daily_limit", JVal.n (requests_per_day : Int)),
          ("created_at", JVal.s (isoformat r.created_at))]) := by
    intro s d ip ua info r hd hr
    simp [get_device_status, hd, hr]
  refine ⟨hnew, hex, ?_, ?_⟩
  · intro s d ip ua info r hd hr
    rw [hex s d ip ua info r hd hr]
    simp [fieldNames]
  · intro s d ip ua info hd hn
    rw [hnew s d ip ua info hd hn]
    simp [fieldNames]

/-- Witness for C9: the new-device and existing-device responses at concrete
inputs, and the presence and absence of created_at there. -/
theorem get_device_status_spec_witness :
    get_device_status "GET" (some "dev9") "ip" "ua" "info" (fun _ => none) false =
      (200, Body.obj [("device_id", JVal.s "dev9"), ("status", JVal.s "new"),
        ("requests_used", JVal.n 0),
        ("requests_remaining", JVal.n (requests_per_device : Int)),
        ("daily_limit", JVal.n (requests_per_day : Int))])
    ∧ get_device_status "GET" (some "dev9") "ip" "ua" "info"
        (fun _ => some (initRecord 4)) false =
      (200, Body.obj [("device_id", JVal.s "dev9"),
        ("status", JVal.s (if (initRecord 4).total_requests < requests_per_device
           then "active" else "limit_reached")),
        ("requests_used", JVal.n ((initRecord 4).total_requests : Int)),
        ("requests_remaining",
           JVal.n (max 0 ((requests_per_device : Int) -
             ((initRecord 4).total_requests : Int)))),
        ("daily_limit", JVal.n (requests_per_day : Int)),
        ("created_at", JVal.s (isoformat (initRecord 4).created_at))])
    ∧ "created_at" ∈ fieldNames (get_device_status "GET" (some "dev9") "ip" "ua" "info"
        (fun _ => some (initRecord 4)) false).2
    ∧ "created_at" ∉ fieldNames (get_device_status "GET" (some "dev9") "ip" "ua" "info"
        (fun _ => none) false).2 :=
  ⟨get_device_status_spec.1 (fun _ => none) "dev9" "ip" "ua" "info" (by decide) rfl,
   get_device_status_spec.2.1 (fun _ => some (initRecord 4)) "dev9" "ip" "ua" "info"
     (initRecord 4) (by decide) rfl,
   get_device_status_spec.2.2.1 (fun _ => some (initRecord 4)) "dev9" "ip" "ua" "info"
     (initRecord 4) (by decide) rfl,
   get_device_status_spec.2.2.2 (fun _ => none) "dev9" "ip" "ua" "info" (by decide) rfl⟩

/-- Counterexample to C10 as stated: a first-ever request denied 503 (empty
key pool) does not leave the usage record entirely unchanged — the rate
check already initialized a zero usage record for the fingerprint. -/
theorem ai_proxy_first_time_503_cex :
    (ai_proxy "POST" true "ip" "ua" "info" (fun _ => none) [] (fun _ => none)
        (Except.ok 0) 7).1 = 503
    ∧ (ai_proxy "POST" true "ip" "ua" "info" (fun _ => none) [] (fun _ => none)
        (Except.ok 0) 7).2.1 ≠ (fun _ => none)
    ∧ (ai_proxy "POST" true "ip" "ua" "info" (fun _ => none) [] (fun _ => none)
        (Except.ok 0) 7).2.2.2 = false := by
  have h : ai_proxy "POST" true "ip" "ua" "info" (fun _ => none) [] (fun _ => none)
      (Except.ok 0) 7 =
      (503,
       fun k => if k = generate_device_id "ip" "ua" "info" then some (initRecord 7)
                else none,
       [], false) := rfl
  refine ⟨by rw [h], ?_, by rw [h]⟩
  rw [h]
  intro hc
  have hval := congrFun hc (generate_device_id "ip" "ua" "info")
  simp at hval

/-- Claim C10 as amended: a 429 or 503 response never invokes track_usage;
a 429 leaves the usage store entirely unchanged; a 503 leaves it unchanged
except that a first-ever request has already initialized the zero usage
record (no counter incremented, no timestamp appended); track_usage runs
exactly for requests that reach the upstream attempt, which answer 200 or
500. -/
theorem ai_proxy_denials_no_tracking :
    ∀ (method : String) (has_body : Bool) (ip ua info : String) (s : Store)
      (keys : List PooledKey) (secrets : String → Option String)
      (upstream : Except Unit Nat) (now : Int),
    ((ai_proxy method has_body ip ua info s keys secrets upstream now).1 = 429 ∨
       (ai_proxy method has_body ip ua info s keys secrets upstream now).1 = 503 →
     (ai_proxy method has_body ip ua info s keys secrets upstream now).2.2.2 = false)
    ∧ ((ai_proxy method has_body ip ua info s keys secrets upstream now).1 = 429 →
       (ai_proxy method has_body ip ua info s keys secrets upstream now).2.1 = s)
    ∧ ((ai_proxy method has_body ip ua info s keys secrets upstream now).1 = 503 →
       (ai_proxy method has_body ip ua info s keys secrets upstream now).2.1 = s ∨
         (s (generate_device_id ip ua info) = none ∧
          (ai_proxy method has_body ip ua info s keys secrets upstream now).2.1 =
            fun k => if k = generate_device_id ip ua info then some (initRecord now)
                     else s k))
    ∧ ((ai_proxy method has_body ip ua info s keys secrets upstream now).2.2.2 = true →
       (ai_proxy method has_body ip ua info s keys secrets upstream now).1 = 200 ∨
         (ai_proxy method has_body ip ua info s keys secrets upstream now).1 = 500) := by
  intro method has_body ip ua info s keys secrets upstream now
  by_cases h1 : method = "OPTIONS"
  · simp [ai_proxy, h1]
  · by_cases h2 : method = "POST"
    · subst h2
      by_cases h3 : has_body = true
      · subst h3
        simp only [ai_proxy, if_neg h1, ne_eq, not_true_eq_false, if_false,
          Bool.false_eq_true]
        rcases hcs : checkStep s (generate_device_id ip ua info) now with ⟨⟨allowed, msg⟩, s1⟩
        cases allowed with
        | false =>
            have hs1 : s1 = s := by
              have hd := checkStep_denied s (generate_device_id ip ua info) now
                (by rw [hcs])
              rw [hcs] at hd
              exact hd
            subst hs1
            simp
        | true =>
            cases hk : get_next_available_key keys secrets with
            | none =>
                refine ⟨fun _ => rfl, fun hc => by simp at hc, fun _ => ?_,
                  fun hc => by simp at hc⟩
                rcases checkStep_store_cases s (generate_device_id ip ua info) now
                  with hcase | ⟨hnone, hcase⟩
                · rw [hcs] at hcase
                  exact Or.inl hcase
                · rw [hcs] at hcase
                  exact Or.inr ⟨hnone, hcase⟩
            | some api_key =>
                cases upstream with
                | ok tokens_used =>
                    exact ⟨fun hc => by simp [proxy_to_gemini] at hc,
                      fun hc => by simp [proxy_to_gemini] at hc,
                      fun hc => by simp [proxy_to_gemini] at hc, fun _ => Or.inl rfl⟩
                | error e =>
                    exact ⟨fun hc => by simp [proxy_to_gemini] at hc,
                      fun hc => by simp [proxy_to_gemini] at hc,
                      fun hc => by simp [proxy_to_gemini] at hc, fun _ => Or.inr rfl⟩
      · simp [ai_proxy, h1, h3]
    · simp [ai_proxy, h1, h2]

/-- Witness for C10: a concrete lifetime-capped request is answered 429 with
no tracking and an unchanged store; a concrete served request is tracked and
answered 200 or 500; a concrete first-ever request with an empty key pool is
answered 503 with the allowed store outcomes. -/
theorem ai_proxy_denials_no_tracking_witness :
    (ai_proxy "POST" true "ip" "ua" "info"
        (fun _ => some { initRecord 0 with total_requests := 1000 }) []
        (fun _ => none) (Except.ok 0) 5).2.2.2 = false
    ∧ (ai_proxy "POST" true "ip" "ua" "info"
        (fun _ => some { initRecord 0 with total_requests := 1000 }) []
        (fun _ => none) (Except.ok 0) 5).2.1 =
        (fun _ => some { initRecord 0 with total_requests := 1000 })
    ∧ ((ai_proxy "POST" true "ip" "ua" "info" (fun _ => some (initRecord 0))
        [⟨"k1", true, 3, 1000⟩] (fun n => some n) (Except.ok 5) 100).1 = 200 ∨
       (ai_proxy "POST" true "ip" "ua" "info" (fun _ => some (initRecord 0))
        [⟨"k1", true, 3, 1000⟩] (fun n => some n) (Except.ok 5) 100).1 = 500)
    ∧ ((ai_proxy "POST" true "ip" "ua" "info" (fun _ => none) [] (fun _ => none)
        (Except.ok 0) 7).2.1 = (fun _ => none) ∨
       ((fun _ => none : Store) (generate_device_id "ip" "ua" "info") = none ∧
        (ai_proxy "POST" true "ip" "ua" "info" (fun _ => none) [] (fun _ => none)
          (Except.ok 0) 7).2.1 =
          fun k => if k = generate_device_id "ip" "ua" "info" then some (initRecord 7)
                   else (fun _ => none : Store) k)) :=
  ⟨(ai_proxy_denials_no_tracking "POST" true "ip" "ua" "info"
      (fun _ => some { initRecord 0 with total_requests := 1000 }) []
      (fun _ => none) (Except.ok 0) 5).1 (Or.inl (by decide)),
   (ai_proxy_denials_no_tracking "POST" true "ip" "ua" "info"
      (fun _ => some { initRecord 0 with total_requests := 1000 }) []
      (fun _ => none) (Except.ok 0) 5).2.1 (by decide),
   (ai_proxy_denials_no_tracking "POST" true "ip" "ua" "info"
      (fun _ => some (initRecord 0)) [⟨"k1", true, 3, 1000⟩] (fun n => some n)
      (Except.ok 5) 100).2.2.2 (by decide),
   (ai_proxy_denials_no_tracking "POST" true "ip" "ua" "info" (fun _ => none) []
      (fun _ => none) (Except.ok 0) 7).2.2.1 (by decide)⟩

/-- Validation of the SHA-256 embedding against the FIPS 180-4 test vector
for "abc". -/
example :
    String.mk (sha256HexChars (strBytes "abc")) =
      "ba7816bf8f01cfea414140de5dae2223b00361a396177a9cb410ff61f20015ad" := by decide

/-- Validation of the SHA-256 embedding against the FIPS 180-4 test vector
for the empty message. -/
example :
    String.mk (sha256HexChars (strBytes "")) =
      "e3b0c44298fc1c149afbf4c8996fb92427ae41e4649b934ca495991b7852b855" := by decide
